import Mathlib

set_option maxHeartbeats 1000000

/-!
Verification of the mpv player control subsystem of invidtui.

This file gives a shallow embedding of the media-player control code in
src/lib/mpv_player.go and the lifecycle watcher in src/ui/ui.go, and proves
theorems about the embedded definitions.

Modelling conventions:
  - the mpvipc transport connection is a `Connection` record: a closed flag
    plus response oracles for Call/Get/Set; every Connector operation also
    returns the list of `TransportOp`s it actually issued, so theorems can
    talk about which transport invocations happen;
  - The untyped Go interface values on the wire are `MpvValue`; numbers are
    modelled as integers (no claim depends on fractional values);
  - a Go dynamic type assertion such as `v.(bool)` is modelled as an
    `Option`-valued coercion; a `none` result of an operation models a Go
    panic, so proving a result is `some _` proves absence of panic;
  - Go channels are modelled as lists with explicit capacity: a plain (i.e.
    blocking) send is `chanSend`, which returns `none` exactly when the
    send would block; the select/default non-blocking operations are total
    functions that drop instead of blocking.
-/

/-- Values carried over the mpv IPC transport. Go passes these as untyped
interface values. `vNil` models the nil interface value. -/
inductive MpvValue where
  | vBool (b : Bool)
  | vNum (n : Int)
  | vStr (s : String)
  | vNil
deriving DecidableEq

/-- One invocation issued on the transport (mpvipc) connection. -/
inductive TransportOp where
  | call (args : List MpvValue)
  | get (prop : String)
  | set (prop : String) (value : MpvValue)
deriving DecidableEq

/-- The mpvipc connection: its closed flag and response oracles describing
how the transport answers each request. The oracles model the external mpv
process and are never touched when the connection is closed. -/
structure Connection where
  closed : Bool
  callResult : List MpvValue → Except String MpvValue
  getResult : String → Except String MpvValue
  setResult : String → MpvValue → Option String

/-- Connector stores the mpvipc connection data (mirrors the Go struct). -/
structure Connector where
  conn : Connection

/-- IsClosed checks if mpv has exited (delegates to the connection). -/
def Connector.IsClosed (c : Connector) : Bool := c.conn.closed

/-- The error message produced by Call/Get/Set on a closed connection. -/
def connectionClosedError : String := "Connection closed"

/-- Call sends a command to the mpv instance; it checks the closed flag
first and fails fast without touching the transport when closed. -/
def Connector.Call (c : Connector) (args : List MpvValue) :
    Except String MpvValue × List TransportOp :=
  if c.IsClosed then (Except.error connectionClosedError, [])
  else (c.conn.callResult args, [TransportOp.call args])

/-- Get reads a property from the mpv instance; closed-checked first. -/
def Connector.Get (c : Connector) (prop : String) :
    Except String MpvValue × List TransportOp :=
  if c.IsClosed then (Except.error connectionClosedError, [])
  else (c.conn.getResult prop, [TransportOp.get prop])

/-- Set writes a property on the mpv instance; closed-checked first. -/
def Connector.Set (c : Connector) (prop : String) (value : MpvValue) :
    Option String × List TransportOp :=
  if c.IsClosed then (some connectionClosedError, [])
  else (c.conn.setResult prop value, [TransportOp.set prop value])

/-- Go type assertion `v.(bool)`: `none` models the panic on a wrong type. -/
def MpvValue.asBool : MpvValue → Option Bool
  | MpvValue.vBool b => some b
  | _ => none

/-- Go type assertion to a number (`v.(float64)` / `int(...)`). -/
def MpvValue.asNum : MpvValue → Option Int
  | MpvValue.vNum n => some n
  | _ => none

/-- Go type assertion `v.(string)`. -/
def MpvValue.asStr : MpvValue → Option String
  | MpvValue.vStr s => some s
  | _ => none

/-- A (value, err) pair from mpvipc seen as Go sees a possibly-nil value:
`none` when the call errored or returned the nil interface value. -/
def valOrNil : Except String MpvValue → Option MpvValue
  | Except.error _ => none
  | Except.ok MpvValue.vNil => none
  | Except.ok v => some v

/-- IsPaused checks if mpv is paused; on any query error it returns the
safe default false. A `none` result models the type-assertion panic. -/
def Connector.IsPaused (c : Connector) : Option Bool × List TransportOp :=
  match c.Get "pause" with
  | (Except.error _, es) => (some false, es)
  | (Except.ok v, es) => (v.asBool, es)

/-- IsShuffle checks if the playlist is shuffled; default false. -/
def Connector.IsShuffle (c : Connector) : Option Bool × List TransportOp :=
  match c.Get "shuffle" with
  | (Except.error _, es) => (some false, es)
  | (Except.ok v, es) => (v.asBool, es)

/-- IsEOF checks if the loaded file finished playback; default false. -/
def Connector.IsEOF (c : Connector) : Option Bool × List TransportOp :=
  match c.Get "eof-reached" with
  | (Except.error _, es) => (some false, es)
  | (Except.ok v, es) => (v.asBool, es)

/-- IsIdle checks if mpv is currently idle; default false. -/
def Connector.IsIdle (c : Connector) : Option Bool × List TransportOp :=
  match c.Get "core-idle" with
  | (Except.error _, es) => (some false, es)
  | (Except.ok v, es) => (v.asBool, es)

/-- MediaType: any error on the height property means Audio. -/
def Connector.MediaType (c : Connector) : String × List TransportOp :=
  match c.Get "height" with
  | (Except.error _, es) => ("Audio", es)
  | (Except.ok _, es) => ("Video", es)

/-- LoopType reads the two loop properties; empty string on any error. -/
def Connector.LoopType (c : Connector) : String × List TransportOp :=
  match c.Call [MpvValue.vStr "get_property_string", MpvValue.vStr "loop-file"] with
  | (Except.error _, es) => ("", es)
  | (Except.ok lf, es) =>
    match c.Call [MpvValue.vStr "get_property_string", MpvValue.vStr "loop-playlist"] with
    | (Except.error _, es2) => ("", es ++ es2)
    | (Except.ok lp, es2) =>
      if lf = MpvValue.vStr "yes" ∨ lf = MpvValue.vStr "inf" then ("R-F", es ++ es2)
      else if lp = MpvValue.vStr "yes" ∨ lp = MpvValue.vStr "inf" then ("R-P", es ++ es2)
      else ("", es ++ es2)

/-- TimePosition returns the current position in the file; default 0. -/
def Connector.TimePosition (c : Connector) : Option Int × List TransportOp :=
  match c.Get "playback-time" with
  | (Except.error _, es) => (some 0, es)
  | (Except.ok v, es) => (v.asNum, es)

/-- Duration returns the total duration of the file, falling back to the
per-entry length option (parsed from a string, as strconv.Atoi does);
default 0. -/
def Connector.Duration (c : Connector) : Option Int × List TransportOp :=
  match c.Get "duration" with
  | (Except.ok v, es) => (v.asNum, es)
  | (Except.error _, es) =>
    match c.Get "options/length" with
    | (Except.error _, es2) => (some 0, es ++ es2)
    | (Except.ok v, es2) =>
      match v.asStr with
      | none => (none, es ++ es2)
      | some s =>
        match s.toInt? with
        | none => (some 0, es ++ es2)
        | some n => (some n, es ++ es2)

/-- PlaylistData returns the current playlist data; empty on error. A
`none` result models the panic of the string type assertion on a
successful non-string response. -/
def Connector.PlaylistData (c : Connector) : Option String × List TransportOp :=
  match c.Call [MpvValue.vStr "get_property_string", MpvValue.vStr "playlist"] with
  | (Except.error _, es) => (some "", es)
  | (Except.ok v, es) => (v.asStr, es)

/-- PlaylistCount returns the number of playlist entries; default 0. -/
def Connector.PlaylistCount (c : Connector) : Option Int × List TransportOp :=
  match c.Get "playlist-count" with
  | (Except.error _, es) => (some 0, es)
  | (Except.ok v, es) => (v.asNum, es)

/-- PlaylistPos returns the playing position in the playlist; default 0. -/
def Connector.PlaylistPos (c : Connector) : Option Int × List TransportOp :=
  match c.Get "playlist-playing-pos" with
  | (Except.error _, es) => (some 0, es)
  | (Except.ok v, es) => (v.asNum, es)

/-- PlaylistTitle returns the title of a playlist entry, falling back to
its filename and then to a dash. -/
def Connector.PlaylistTitle (c : Connector) (pos : Int) :
    Option String × List TransportOp :=
  match c.Call [MpvValue.vStr "get_property_string",
      MpvValue.vStr ("playlist/" ++ toString pos ++ "/title")] with
  | (r1, es1) =>
    match valOrNil r1 with
    | some v => (v.asStr, es1)
    | none =>
      match c.Call [MpvValue.vStr "get_property_string",
          MpvValue.vStr ("playlist/" ++ toString pos ++ "/filename")] with
      | (r2, es2) =>
        match valOrNil r2 with
        | some v => (v.asStr, es1 ++ es2)
        | none => (some "-", es1 ++ es2)

/-! ## Monitor state

The package-level monitor data of mpv_player.go: the two bounded channels
mpvInfoChan and mpvErrorChan (capacity 100), the monitorMap (an association
list standing for the Go map, with overwrite-on-insert), and the messages
delivered on the unbuffered MPVErrors channel. -/

/-- Monitor state: the info channel buffer, the error channel buffer, the
entry map, and the titles delivered on the MPVErrors channel so far. -/
structure MonitorState where
  infoChan : List Int
  errorChan : List Int
  monitorMap : List (Int × String)
  notifications : List String
deriving DecidableEq

/-- The initial monitor state made by MPVStart: empty channels, empty map. -/
def initState : MonitorState :=
  { infoChan := [], errorChan := [], monitorMap := [], notifications := [] }

/-- Go map deletion on the association-list model. -/
def mapDelete (id : Int) : List (Int × String) → List (Int × String)
  | [] => []
  | p :: rest => if p.1 = id then mapDelete id rest else p :: mapDelete id rest

/-- Go map insertion (overwrite) on the association-list model. -/
def mapInsert (id : Int) (name : String) (m : List (Int × String)) :
    List (Int × String) :=
  mapDelete id m ++ [(id, name)]

/-- Go map lookup with the zero value for a missing key. -/
def mapFindD (id : Int) : List (Int × String) → String
  | [] => ""
  | p :: rest => if p.1 = id then p.2 else mapFindD id rest

/-- A plain Go send on a buffered channel of capacity `cap`: `none` exactly
when the buffer is full, i.e. when the send would block. -/
def chanSend (cap : Nat) (buf : List Int) (v : Int) : Option (List Int) :=
  if buf.length < cap then some (buf ++ [v]) else none

/-- addToMonitor adds a filename to the monitor: a select/default
non-blocking receive from mpvInfoChan; if no identifier is pending the
name is silently dropped. -/
def addToMonitor (name : String) (st : MonitorState) : MonitorState :=
  match st.infoChan with
  | [] => st
  | id :: rest =>
    { st with infoChan := rest, monitorMap := mapInsert id name st.monitorMap }

/-- clearMonitor clears the monitor data (makes a fresh map). -/
def clearMonitor (st : MonitorState) : MonitorState :=
  { st with monitorMap := [] }

/-- The select/default non-blocking send on the unbuffered MPVErrors
channel: delivered only when a consumer is currently receiving, dropped
otherwise; never blocks. -/
def mpvErrorsSend (consumerReady : Bool) (notifications : List String)
    (title : String) : List String :=
  if consumerReady then notifications ++ [title] else notifications

/-- One iteration of the monitorStart loop once an identifier is available
on mpvErrorChan: look the title up, delete the entry, and offer the title
on MPVErrors with a non-blocking send. -/
def monitorStep (consumerReady : Bool) (st : MonitorState) : MonitorState :=
  match st.errorChan with
  | [] => st
  | id :: rest =>
    { st with
      errorChan := rest
      monitorMap := mapDelete id st.monitorMap
      notifications := mpvErrorsSend consumerReady st.notifications
        (mapFindD id st.monitorMap) }

/-- Runs the monitorStart loop until mpvErrorChan is drained. -/
def monitorDrainAux (consumerReady : Bool) : Nat → MonitorState → MonitorState
  | 0, st => st
  | n + 1, st => monitorDrainAux consumerReady n (monitorStep consumerReady st)

/-- monitorDrain lets the monitorStart task digest every queued error
identifier. -/
def monitorDrain (consumerReady : Bool) (st : MonitorState) : MonitorState :=
  monitorDrainAux consumerReady st.errorChan.length st

/-! ## Event listener -/

/-- An event received from the mpv event stream. -/
structure MpvEvent where
  name : String
  extraData : List (String × MpvValue)

/-- Go map lookup in the event payload: `none` is the nil interface value
for a missing key. -/
def lookupData (k : String) : List (String × MpvValue) → Option MpvValue
  | [] => none
  | p :: rest => if p.1 = k then some p.2 else lookupData k rest

/-- eventListener dispatch for a single event, acting on the monitor
channels. Returns `none` when the handler would block on a full channel
send or panic on a type assertion. On "start-file" the playlist entry
identifier is sent (plain, blocking send) to mpvInfoChan; on "end-file"
with a non-empty file_error the identifier is sent to mpvErrorChan;
anything else is ignored. -/
def eventStep (e : MpvEvent) (st : MonitorState) : Option MonitorState :=
  if e.name = "start-file" then
    if e.extraData.length > 0 then
      match lookupData "playlist_entry_id" e.extraData with
      | none => none
      | some v =>
        match v.asNum with
        | none => none
        | some id =>
          match chanSend 100 st.infoChan id with
          | none => none
          | some buf => some { st with infoChan := buf }
    else some st
  else if e.name = "end-file" then
    if e.extraData.length > 0 then
      match lookupData "file_error" e.extraData,
          lookupData "playlist_entry_id" e.extraData with
      | some fe, some v =>
        match fe.asStr with
        | none => none
        | some s =>
          if s ≠ "" then
            match v.asNum with
            | none => none
            | some id =>
              match chanSend 100 st.errorChan id with
              | none => none
              | some buf => some { st with errorChan := buf }
          else some st
      | _, _ => some st
    else some st
  else some st

/-- The canonical well-formed "start-file" event for an entry identifier. -/
def startedEvent (id : Int) : MpvEvent :=
  { name := "start-file", extraData := [("playlist_entry_id", MpvValue.vNum id)] }

/-- The canonical well-formed "end-file" event carrying a file error. -/
def endedEvent (id : Int) (fileError : String) : MpvEvent :=
  { name := "end-file"
    extraData := [("file_error", MpvValue.vStr fileError),
                  ("playlist_entry_id", MpvValue.vNum id)] }

/-! ## Mutators and load operations -/

/-- The argument list of the loadfile command issued by LoadFile, given
the first file (Go indexes the variadic list at position 0; LoadFile
models the empty-list panic separately) and the full variadic list, whose
length and second element feed the audio-file option (the second element
is only read under the length-two guard, as in the source). The single
quote characters of the Go options string are built explicitly. -/
def loadfileArgs (title : String) (duration : Int) (f0 : String)
    (files : List String) : List MpvValue :=
  let q := String.mk [Char.ofNat 39]
  let options := "title=" ++ q ++ title ++ q ++ ",length=" ++ toString duration
  let options :=
    if files.length = 2 then options ++ ",audio-file=" ++ files.getD 1 ""
    else options
  [MpvValue.vStr "loadfile", MpvValue.vStr f0,
   MpvValue.vStr "append-play", MpvValue.vStr options]

/-- The argument list of the loadlist command issued by LoadPlaylist. -/
def loadlistArgs (plpath : String) (param : String) : List MpvValue :=
  [MpvValue.vStr "loadlist", MpvValue.vStr plpath, MpvValue.vStr param]

/-- Result of a load operation: the error returned to the caller, the
monitor state afterwards, and the transport operations issued. -/
structure LoadResult where
  err : Option String
  state : MonitorState
  ops : List TransportOp
deriving DecidableEq

/-- LoadFile loads the given file into mpv with its metadata, appending to
the playlist. It surfaces a load error carrying the attempted title when
the transport call errors; on success it registers the title with the
monitor. A `none` result models the Go index-out-of-range panic when the
variadic file list is empty: the position-0 index is evaluated while
building the command arguments, before any closed check or transport
interaction. -/
def Connector.LoadFile (c : Connector) (st : MonitorState) (title : String)
    (duration : Int) (files : List String) : Option LoadResult :=
  match files with
  | [] => none
  | f0 :: rest =>
    match c.Call (loadfileArgs title duration f0 (f0 :: rest)) with
    | (Except.error _, es) =>
      some { err := some ("Unable to load " ++ title), state := st, ops := es }
    | (Except.ok _, es) =>
      some { err := none, state := addToMonitor title st, ops := es }

/-- LoadPlaylist loads a playlist file, appending or replacing; a replace
clears the monitor state before the transport call is issued. It surfaces
a load error carrying the attempted path when the transport call errors;
on success it registers a generic placeholder with the monitor. -/
def Connector.LoadPlaylist (c : Connector) (st : MonitorState)
    (plpath : String) (replace : Bool) : LoadResult :=
  let param := if replace then "replace" else "append-play"
  let st1 := if replace then clearMonitor st else st
  match c.Call (loadlistArgs plpath param) with
  | (Except.error _, es) =>
    { err := some ("Unable to load " ++ plpath), state := st1, ops := es }
  | (Except.ok _, es) =>
    { err := none, state := addToMonitor "playlist entry" st1, ops := es }

/-- SetPlaylistPos sets the playlist position; returns nothing. -/
def Connector.SetPlaylistPos (c : Connector) (pos : Int) :
    Option String × List TransportOp :=
  (none, (c.Set "playlist-pos" (MpvValue.vNum pos)).2)

/-- PlaylistDelete deletes an entry from the playlist; returns nothing. -/
def Connector.PlaylistDelete (c : Connector) (entry : Int) :
    Option String × List TransportOp :=
  (none, (c.Call [MpvValue.vStr "playlist-remove", MpvValue.vNum entry]).2)

/-- PlaylistMove moves a playlist entry; returns nothing. -/
def Connector.PlaylistMove (c : Connector) (a b : Int) :
    Option String × List TransportOp :=
  (none, (c.Call [MpvValue.vStr "playlist-move", MpvValue.vNum a, MpvValue.vNum b]).2)

/-- PlaylistClear clears the playlist and then the monitor data; returns
nothing. The monitor is cleared even if the transport call errors. -/
def Connector.PlaylistClear (c : Connector) (st : MonitorState) : LoadResult :=
  let r := c.Call [MpvValue.vStr "playlist-clear"]
  { err := none, state := clearMonitor st, ops := r.2 }

/-- Play starts the playback; returns nothing. -/
def Connector.Play (c : Connector) : Option String × List TransportOp :=
  (none, (c.Set "pause" (MpvValue.vStr "no")).2)

/-- PlaylistPlayLatest jumps to the last playlist index and plays; returns
nothing. A `none` result models the panic of the count type assertion. -/
def Connector.PlaylistPlayLatest (c : Connector) :
    Option (Option String × List TransportOp) :=
  match c.PlaylistCount with
  | (none, _) => none
  | (some n, es1) =>
    let r := c.Set "playlist-pos" (MpvValue.vNum (n - 1))
    let rp := c.Play
    some (none, es1 ++ r.2 ++ rp.2)

/-- CyclePaused toggles between pause and play states; if the file has
reached end-of-file while paused, it first seeks back to the start. A
`none` result models a query type-assertion panic. -/
def Connector.CyclePaused (c : Connector) :
    Option (Option String × List TransportOp) :=
  match c.IsEOF with
  | (none, _) => none
  | (some eof, es1) =>
    if eof then
      match c.IsPaused with
      | (none, _) => none
      | (some paused, es2) =>
        if paused then
          let r1 := c.Call [MpvValue.vStr "seek", MpvValue.vNum 0,
            MpvValue.vStr "absolute-percent"]
          let r2 := c.Call [MpvValue.vStr "cycle", MpvValue.vStr "pause"]
          some (none, es1 ++ es2 ++ r1.2 ++ r2.2)
        else
          let r2 := c.Call [MpvValue.vStr "cycle", MpvValue.vStr "pause"]
          some (none, es1 ++ es2 ++ r2.2)
    else
      let r2 := c.Call [MpvValue.vStr "cycle", MpvValue.vStr "pause"]
      some (none, es1 ++ r2.2)

/-- CycleShuffle cycles the shuffle state; returns nothing. -/
def Connector.CycleShuffle (c : Connector) : Option String × List TransportOp :=
  (none, (c.Call [MpvValue.vStr "cycle", MpvValue.vStr "shuffle"]).2)

/-- CycleLoop rotates the package-level loop state through none, loop-file
and loop-playlist, setting both loop properties on each transition. It
takes the current loop state and returns (caller result, next loop state,
issued transport operations). -/
def Connector.CycleLoop (c : Connector) (loop : String) :
    Option String × String × List TransportOp :=
  if loop = "" then
    let r1 := c.Set "loop-file" (MpvValue.vStr "yes")
    let r2 := c.Set "loop-playlist" (MpvValue.vStr "no")
    (none, "loop-file", r1.2 ++ r2.2)
  else if loop = "loop-file" then
    let r1 := c.Set "loop-file" (MpvValue.vStr "no")
    let r2 := c.Set "loop-playlist" (MpvValue.vStr "yes")
    (none, "loop-playlist", r1.2 ++ r2.2)
  else if loop = "loop-playlist" then
    let r1 := c.Set "loop-file" (MpvValue.vStr "no")
    let r2 := c.Set "loop-playlist" (MpvValue.vStr "no")
    (none, "", r1.2 ++ r2.2)
  else (none, loop, [])

/-- Stop stops the playback; returns nothing. -/
def Connector.Stop (c : Connector) : Option String × List TransportOp :=
  (none, (c.Call [MpvValue.vStr "stop"]).2)

/-- SeekForward seeks the track forward by one unit; returns nothing. -/
def Connector.SeekForward (c : Connector) : Option String × List TransportOp :=
  (none, (c.Call [MpvValue.vStr "seek", MpvValue.vNum 1]).2)

/-- SeekBackward seeks the track backward by one unit; returns nothing. -/
def Connector.SeekBackward (c : Connector) : Option String × List TransportOp :=
  (none, (c.Call [MpvValue.vStr "seek", MpvValue.vNum (-1)]).2)

/-- Next plays the next playlist item; returns nothing. -/
def Connector.Next (c : Connector) : Option String × List TransportOp :=
  (none, (c.Call [MpvValue.vStr "playlist-next"]).2)

/-- Prev plays the previous playlist item; returns nothing. -/
def Connector.Prev (c : Connector) : Option String × List TransportOp :=
  (none, (c.Call [MpvValue.vStr "playlist-prev"]).2)

/-- MPVStop sends a quit command unless the connection is already closed,
and optionally removes the socket file. Returns the issued transport
operations and whether a socket file removal was attempted. -/
def Connector.MPVStop (c : Connector) (rm : Bool) :
    List TransportOp × Bool :=
  if c.IsClosed then ([], false)
  else
    let r := c.Call [MpvValue.vStr "quit"]
    if rm then (r.2, true) else (r.2, false)

/-! ## Process launcher connect retry -/

/-- Outcome of the MPVConnect retry loop: the result (index of the first
successful open attempt, or the timeout error), the number of open
attempts made, and the number of one-second sleeps performed. -/
structure ConnectOutcome where
  result : Except String Nat
  attempts : Nat
  sleeps : Nat

/-- The error message returned when every open attempt fails. -/
def connectTimeoutError : String := "Error: Could not connect to socket"

/-- The connect retry loop of MPVConnect: attempt `conn.Open()` up to the
given number of remaining tries, sleeping one second after every failed
attempt (also the last one) before re-testing the loop condition.
`openOk i` tells whether the i-th open attempt succeeds. -/
def connectAttempts (openOk : Nat → Bool) : Nat → Nat → ConnectOutcome
  | _, 0 => { result := Except.error connectTimeoutError, attempts := 0, sleeps := 0 }
  | i, r + 1 =>
    if openOk i then { result := Except.ok i, attempts := 1, sleeps := 0 }
    else
      let rest := connectAttempts openOk (i + 1) r
      { result := rest.result, attempts := rest.attempts + 1, sleeps := rest.sleeps + 1 }

/-- The socket connection phase of MPVConnect with a retry budget. -/
def MPVConnect (openOk : Nat → Bool) (connretries : Nat) : ConnectOutcome :=
  connectAttempts openOk 0 connretries

/-! ## Lifecycle watcher (src/ui/ui.go) -/

/-- An externally visible action of the lifecycle watcher. -/
inductive WatcherAction where
  | teardown
  | removeSocket
  | diagnostic (msg : String)
deriving DecidableEq

/-- Modelled from the spec: StopUI triggers the full application teardown
(it closes the shutdown signal, then calls StopPlayer and App.Stop, both
defined outside src/); the spec describes this as a single full
application teardown, which does not itself remove the socket file. -/
def StopUI (_closeInstances : Bool) : List WatcherAction :=
  [WatcherAction.teardown]

/-- detectMPVClose wakes when the transport reports the connection closed.
If the detectClose shutdown signal is already closed it returns quietly;
otherwise it runs StopUI(true), then attempts to remove the socket file
(when the socket path resolves, modelled from the spec: ConfigPath is
outside src/ and the spec takes the path as given), then prints a
diagnostic. -/
def detectMPVClose (detectCloseClosed : Bool) (configPathOk : Bool) :
    List WatcherAction :=
  if detectCloseClosed then []
  else
    StopUI true
      ++ (if configPathOk then [WatcherAction.removeSocket] else [])
      ++ [WatcherAction.diagnostic "MPV has exited"]

/-! ## Interleaved monitor traces

An idealised sequential scheduling of the monitor-relevant steps: the
registration step of a successful load (its transport call does not touch
the monitor state), the event listener handling of a start-file event, and
the event listener handling of an end-file event immediately digested by
the monitorStart task. A `none` outcome means some step would block or
panic. -/

/-- One monitor-relevant step of an execution. `load` is the registration
step that a successful LoadFile or LoadPlaylist performs via addToMonitor;
`started` and `ended` are the arrival of the corresponding events. -/
inductive PlayerOp where
  | load (title : String)
  | started (id : Int)
  | ended (id : Int) (fileError : String)

/-- Effect of one PlayerOp on the monitor state; for an end event the
monitorStart task is allowed to drain the error queue afterwards. -/
def opStep (consumerReady : Bool) (op : PlayerOp) (st : MonitorState) :
    Option MonitorState :=
  match op with
  | PlayerOp.load title => some (addToMonitor title st)
  | PlayerOp.started id => eventStep (startedEvent id) st
  | PlayerOp.ended id e =>
    match eventStep (endedEvent id e) st with
    | none => none
    | some st2 => some (monitorDrain consumerReady st2)

/-- Runs a sequence of monitor-relevant steps. -/
def runOps (consumerReady : Bool) : List PlayerOp → MonitorState → Option MonitorState
  | [], st => some st
  | op :: rest, st =>
    match opStep consumerReady op st with
    | none => none
    | some st2 => runOps consumerReady rest st2

/-- The step sequence of the claim about causally ordered loads, with each
matching start-file event processed between the transport call of a load and
its registration (so the identifier is pending when the load registers). -/
def pairsOps : List (Int × String) → List PlayerOp
  | [] => []
  | p :: rest => PlayerOp.started p.1 :: PlayerOp.load p.2 :: pairsOps rest

/-- Folding mapInsert over a list of (identifier, title) pairs. -/
def insertAll : List (Int × String) → List (Int × String) → List (Int × String)
  | [], m => m
  | p :: rest, m => insertAll rest (mapInsert p.1 p.2 m)

/-! ## Theorems -/

/-- On a closed connection CycleLoop issues no transport operation, in
every loop state. -/
theorem cycleLoop_ops_closed (c : Connector) (h : c.IsClosed = true)
    (loopSt : String) : (c.CycleLoop loopSt).2.2 = [] := by
  unfold Connector.CycleLoop
  split
  · simp [Connector.Set, h]
  · split
    · simp [Connector.Set, h]
    · split
      · simp [Connector.Set, h]
      · rfl

/-- C1 (amended): every Connector operation invoked after the connection
is marked closed returns immediately without invoking the transport: the
primitives Call, Get and Set check the closed state first and yield the
connection closed error, every state query yields its safe default
without panicking, every mutator issues no transport operation (the load
mutators surface a load error derived from the closed-connection failure,
carrying the attempted title or path), and nothing blocks — with the sole
exception that LoadFile invoked with zero file arguments panics on the
index-out-of-range while building the command arguments, before the
closed check is reached (final conjunct). -/
theorem c1_closed_fail_fast (c : Connector) (h : c.IsClosed = true)
    (args : List MpvValue) (prop title plpath loopSt f0 : String)
    (v : MpvValue) (st : MonitorState) (pos d a b entry : Int)
    (rest : List String) (rm : Bool) :
    c.Call args = (Except.error connectionClosedError, []) ∧
    c.Get prop = (Except.error connectionClosedError, []) ∧
    c.Set prop v = (some connectionClosedError, []) ∧
    c.IsPaused = (some false, []) ∧
    c.IsShuffle = (some false, []) ∧
    c.IsEOF = (some false, []) ∧
    c.IsIdle = (some false, []) ∧
    c.MediaType = ("Audio", []) ∧
    c.LoopType = ("", []) ∧
    c.TimePosition = (some 0, []) ∧
    c.Duration = (some 0, []) ∧
    c.PlaylistData = (some "", []) ∧
    c.PlaylistCount = (some 0, []) ∧
    c.PlaylistPos = (some 0, []) ∧
    c.PlaylistTitle pos = (some "-", []) ∧
    c.Play = (none, []) ∧
    c.Stop = (none, []) ∧
    c.SeekForward = (none, []) ∧
    c.SeekBackward = (none, []) ∧
    c.Next = (none, []) ∧
    c.Prev = (none, []) ∧
    c.CyclePaused = some (none, []) ∧
    c.CycleShuffle = (none, []) ∧
    (c.CycleLoop loopSt).2.2 = [] ∧
    c.SetPlaylistPos pos = (none, []) ∧
    c.PlaylistDelete entry = (none, []) ∧
    c.PlaylistMove a b = (none, []) ∧
    c.PlaylistClear st = { err := none, state := clearMonitor st, ops := [] } ∧
    c.PlaylistPlayLatest = some (none, []) ∧
    c.LoadFile st title d (f0 :: rest) =
      some { err := some ("Unable to load " ++ title), state := st, ops := [] } ∧
    c.LoadPlaylist st plpath false =
      { err := some ("Unable to load " ++ plpath), state := st, ops := [] } ∧
    c.MPVStop rm = ([], false) ∧
    c.LoadFile st title d [] = none := by
  refine ⟨?_, ?_, ?_, ?_, ?_, ?_, ?_, ?_, ?_, ?_, ?_, ?_, ?_, ?_, ?_, ?_,
    ?_, ?_, ?_, ?_, ?_, ?_, ?_, cycleLoop_ops_closed c h loopSt, ?_, ?_,
    ?_, ?_, ?_, ?_, ?_, ?_, ?_⟩ <;>
    simp [Connector.Call, Connector.Get, Connector.Set, Connector.IsPaused,
      Connector.IsShuffle, Connector.IsEOF, Connector.IsIdle,
      Connector.MediaType, Connector.LoopType, Connector.TimePosition,
      Connector.Duration, Connector.PlaylistData, Connector.PlaylistCount,
      Connector.PlaylistPos, Connector.PlaylistTitle, Connector.Play,
      Connector.Stop, Connector.SeekForward, Connector.SeekBackward,
      Connector.Next, Connector.Prev, Connector.CyclePaused,
      Connector.CycleShuffle, Connector.SetPlaylistPos,
      Connector.PlaylistDelete, Connector.PlaylistMove,
      Connector.PlaylistClear, Connector.PlaylistPlayLatest,
      Connector.LoadFile, Connector.LoadPlaylist, Connector.MPVStop,
      valOrNil, h]

/-- A concrete closed connection, as left behind after mpv exits. -/
def closedConn : Connector :=
  { conn :=
    { closed := true
      callResult := fun _ => Except.ok MpvValue.vNil
      getResult := fun _ => Except.ok MpvValue.vNil
      setResult := fun _ _ => none } }

/-- Witness for C1 at a concrete closed connection. -/
theorem c1_closed_fail_fast_witness :
    closedConn.IsClosed = true ∧
    (closedConn.Call [] = (Except.error connectionClosedError, []) ∧
    closedConn.Get "pause" = (Except.error connectionClosedError, []) ∧
    closedConn.Set "pause" MpvValue.vNil = (some connectionClosedError, []) ∧
    closedConn.IsPaused = (some false, []) ∧
    closedConn.IsShuffle = (some false, []) ∧
    closedConn.IsEOF = (some false, []) ∧
    closedConn.IsIdle = (some false, []) ∧
    closedConn.MediaType = ("Audio", []) ∧
    closedConn.LoopType = ("", []) ∧
    closedConn.TimePosition = (some 0, []) ∧
    closedConn.Duration = (some 0, []) ∧
    closedConn.PlaylistData = (some "", []) ∧
    closedConn.PlaylistCount = (some 0, []) ∧
    closedConn.PlaylistPos = (some 0, []) ∧
    closedConn.PlaylistTitle 0 = (some "-", []) ∧
    closedConn.Play = (none, []) ∧
    closedConn.Stop = (none, []) ∧
    closedConn.SeekForward = (none, []) ∧
    closedConn.SeekBackward = (none, []) ∧
    closedConn.Next = (none, []) ∧
    closedConn.Prev = (none, []) ∧
    closedConn.CyclePaused = some (none, []) ∧
    closedConn.CycleShuffle = (none, []) ∧
    (closedConn.CycleLoop "").2.2 = [] ∧
    closedConn.SetPlaylistPos 0 = (none, []) ∧
    closedConn.PlaylistDelete 0 = (none, []) ∧
    closedConn.PlaylistMove 0 0 = (none, []) ∧
    closedConn.PlaylistClear initState =
      { err := none, state := clearMonitor initState, ops := [] } ∧
    closedConn.PlaylistPlayLatest = some (none, []) ∧
    closedConn.LoadFile initState "Song A" 0 ("a.m4a" :: []) =
      some { err := some ("Unable to load " ++ "Song A"), state := initState,
             ops := [] } ∧
    closedConn.LoadPlaylist initState "list.m3u8" false =
      { err := some ("Unable to load " ++ "list.m3u8"), state := initState, ops := [] } ∧
    closedConn.MPVStop false = ([], false) ∧
    closedConn.LoadFile initState "Song A" 0 [] = none) :=
  ⟨rfl, c1_closed_fail_fast closedConn rfl [] "pause" "Song A" "list.m3u8" ""
    "a.m4a" MpvValue.vNil initState 0 0 0 0 0 [] false⟩

/-- C1 counterexample: LoadFile invoked with zero file arguments panics
(the position-0 index of the empty variadic list, modelled as none) even
on a closed connection — it yields neither a connection-closed error nor
a load error, against the claim that no operation invoked after the
connection is marked closed ever panics. -/
theorem c1_loadfile_empty_panics :
    closedConn.IsClosed = true ∧
    closedConn.LoadFile initState "Song A" 0 [] = none :=
  ⟨rfl, rfl⟩

/-- A monitor state with one pending identifier in the info queue. -/
def pendingState : MonitorState :=
  { infoChan := [5], errorChan := [], monitorMap := [], notifications := [] }

/-- C10: an entry is inserted into the Monitor Entry Map only when an
identifier is already pending in the info queue at the moment a successful
load registers its title; with no pending identifier the title is silently
dropped and that load is never tracked. -/
theorem c10_addToMonitor_pending (name : String) (st : MonitorState) :
    (st.infoChan = [] → addToMonitor name st = st) ∧
    (∀ id rest, st.infoChan = id :: rest →
      addToMonitor name st =
        { st with infoChan := rest,
                  monitorMap := mapInsert id name st.monitorMap }) := by
  constructor
  · intro h
    unfold addToMonitor
    rw [h]
  · intro id rest h
    unfold addToMonitor
    rw [h]

/-- Witness for C10: with identifier 5 pending, the load of Song A is
tracked under 5; with no identifier pending, Song B is dropped. -/
theorem c10_addToMonitor_pending_witness :
    (pendingState.infoChan = (5 : Int) :: [] ∧
      addToMonitor "Song A" pendingState =
        { pendingState with infoChan := [],
                            monitorMap := mapInsert 5 "Song A" pendingState.monitorMap }) ∧
    (initState.infoChan = [] ∧ addToMonitor "Song B" initState = initState) :=
  ⟨⟨rfl, (c10_addToMonitor_pending "Song A" pendingState).2 5 [] rfl⟩,
   ⟨rfl, (c10_addToMonitor_pending "Song B" initState).1 rfl⟩⟩

/-- C9: when LoadPlaylist is called with replace and the transport call
fails, the monitor map has nonetheless been cleared: the clear happens
before the transport call and is not rolled back on error. -/
theorem c9_replace_clear_kept (c : Connector) (st : MonitorState)
    (plpath : String)
    (hfail : ∃ msg, (c.Call (loadlistArgs plpath "replace")).1 = Except.error msg) :
    (c.LoadPlaylist st plpath true).err = some ("Unable to load " ++ plpath) ∧
    (c.LoadPlaylist st plpath true).state = clearMonitor st ∧
    (c.LoadPlaylist st plpath true).state.monitorMap = [] := by
  obtain ⟨msg, hm⟩ := hfail
  rcases hc : c.Call (loadlistArgs plpath "replace") with ⟨r, es⟩
  rw [hc] at hm
  simp only at hm
  subst hm
  simp [Connector.LoadPlaylist, hc, clearMonitor]

/-- A monitor state with a stale tracked entry, used for witnesses. -/
def staleState : MonitorState :=
  { infoChan := [], errorChan := [], monitorMap := [(3, "Old Song")],
    notifications := [] }

/-- Witness for C9 on a closed connection, whose loadlist call fails. -/
theorem c9_replace_clear_kept_witness :
    (∃ msg, (closedConn.Call (loadlistArgs "list.m3u8" "replace")).1 =
      Except.error msg) ∧
    ((closedConn.LoadPlaylist staleState "list.m3u8" true).err =
      some ("Unable to load " ++ "list.m3u8") ∧
    (closedConn.LoadPlaylist staleState "list.m3u8" true).state =
      clearMonitor staleState ∧
    (closedConn.LoadPlaylist staleState "list.m3u8" true).state.monitorMap = []) :=
  ⟨⟨connectionClosedError, rfl⟩,
   c9_replace_clear_kept closedConn staleState "list.m3u8"
     ⟨connectionClosedError, rfl⟩⟩

/-- Tests whether a transport response is an error. -/
def exceptErr : Except String MpvValue → Bool
  | Except.error _ => true
  | Except.ok _ => false

/-- C7: LoadFile and LoadPlaylist return an error carrying the attempted
title or path exactly when their transport call errors, while every other
mutator returns nothing to the caller whatever the transport does. The
LoadFile equivalence is stated for a non-empty file list: with zero file
arguments LoadFile panics on the variadic index before any transport
call (see C1), so nothing is returned there at all. -/
theorem c7_load_errors_surface (c : Connector) (st : MonitorState)
    (title plpath loopSt f0 : String) (d pos a b entry : Int)
    (rest : List String) :
    ((c.LoadFile st title d (f0 :: rest)).map LoadResult.err =
      some (if exceptErr (c.Call (loadfileArgs title d f0 (f0 :: rest))).1
            then some ("Unable to load " ++ title) else none)) ∧
    ((c.LoadPlaylist st plpath false).err =
      if exceptErr (c.Call (loadlistArgs plpath "append-play")).1
      then some ("Unable to load " ++ plpath) else none) ∧
    ((c.LoadPlaylist st plpath true).err =
      if exceptErr (c.Call (loadlistArgs plpath "replace")).1
      then some ("Unable to load " ++ plpath) else none) ∧
    (c.Play).1 = none ∧
    (c.Stop).1 = none ∧
    (c.SeekForward).1 = none ∧
    (c.SeekBackward).1 = none ∧
    (c.Next).1 = none ∧
    (c.Prev).1 = none ∧
    Option.all (fun r => r.1.isNone) c.CyclePaused = true ∧
    (c.CycleShuffle).1 = none ∧
    (c.CycleLoop loopSt).1 = none ∧
    (c.SetPlaylistPos pos).1 = none ∧
    (c.PlaylistDelete entry).1 = none ∧
    (c.PlaylistMove a b).1 = none ∧
    (c.PlaylistClear st).err = none ∧
    Option.all (fun r => r.1.isNone) c.PlaylistPlayLatest = true := by
  refine ⟨?_, ?_, ?_, rfl, rfl, rfl, rfl, rfl, rfl, ?_, rfl, ?_, rfl, rfl,
    rfl, rfl, ?_⟩
  · rcases hc : c.Call (loadfileArgs title d f0 (f0 :: rest)) with ⟨r, es⟩
    cases r <;> simp [Connector.LoadFile, hc, exceptErr]
  · rcases hc : c.Call (loadlistArgs plpath "append-play") with ⟨r, es⟩
    cases r <;> simp [Connector.LoadPlaylist, hc, exceptErr]
  · rcases hc : c.Call (loadlistArgs plpath "replace") with ⟨r, es⟩
    cases r <;> simp [Connector.LoadPlaylist, hc, exceptErr]
  · unfold Connector.CyclePaused
    rcases hE : c.IsEOF with ⟨v1, es1⟩
    cases v1 with
    | none => rfl
    | some eof =>
      cases eof
      · rfl
      · rcases hP : c.IsPaused with ⟨v2, es2⟩
        cases v2 with
        | none => rfl
        | some p => cases p <;> rfl
  · unfold Connector.CycleLoop
    split
    · rfl
    · split
      · rfl
      · split
        · rfl
        · rfl
  · unfold Connector.PlaylistPlayLatest
    rcases hN : c.PlaylistCount with ⟨v, es⟩
    cases v <;> rfl

/-- How mpv interprets a value written to a loop property: the property
becomes active exactly for the strings yes and inf. -/
def loopFlagValue : MpvValue → Bool
  | MpvValue.vStr s => s == "yes" || s == "inf"
  | _ => false

/-- Replays a list of transport operations onto the pair of mpv-side
booleans (loop-file, loop-playlist). -/
def applySets : List TransportOp → Bool × Bool → Bool × Bool
  | [], flags => flags
  | TransportOp.set p v :: rest, flags =>
    applySets rest
      (if p = "loop-file" then (loopFlagValue v, flags.2)
       else if p = "loop-playlist" then (flags.1, loopFlagValue v)
       else flags)
  | _ :: rest, flags => applySets rest flags

/-- C5: starting from loop state none with both booleans unset, three
consecutive CycleLoop calls visit loop-file and then loop-playlist and
return to none, and after each call the mpv-side booleans hold exactly one
yes (first and second call) or two noes (third call) — never both yes. -/
theorem c5_cycleLoop_rotation (c : Connector) (h : c.IsClosed = false) :
    (c.CycleLoop "").2.1 = "loop-file" ∧
    applySets (c.CycleLoop "").2.2 (false, false) = (true, false) ∧
    (c.CycleLoop "loop-file").2.1 = "loop-playlist" ∧
    applySets (c.CycleLoop "loop-file").2.2 (true, false) = (false, true) ∧
    (c.CycleLoop "loop-playlist").2.1 = "" ∧
    applySets (c.CycleLoop "loop-playlist").2.2 (false, true) = (false, false) := by
  refine ⟨?_, ?_, ?_, ?_, ?_, ?_⟩ <;>
    simp [Connector.CycleLoop, Connector.Set, h, applySets, loopFlagValue]

/-- A concrete open connection whose oracles respond without errors. -/
def openConn : Connector :=
  { conn :=
    { closed := false
      callResult := fun _ => Except.ok MpvValue.vNil
      getResult := fun _ => Except.ok MpvValue.vNil
      setResult := fun _ _ => none } }

/-- Witness for C5 at a concrete open connection. -/
theorem c5_cycleLoop_rotation_witness :
    openConn.IsClosed = false ∧
    ((openConn.CycleLoop "").2.1 = "loop-file" ∧
    applySets (openConn.CycleLoop "").2.2 (false, false) = (true, false) ∧
    (openConn.CycleLoop "loop-file").2.1 = "loop-playlist" ∧
    applySets (openConn.CycleLoop "loop-file").2.2 (true, false) = (false, true) ∧
    (openConn.CycleLoop "loop-playlist").2.1 = "" ∧
    applySets (openConn.CycleLoop "loop-playlist").2.2 (false, true) = (false, false)) :=
  ⟨rfl, c5_cycleLoop_rotation openConn rfl⟩

/-- The command invocations (Call operations) among a list of transport
operations, with their argument lists. -/
def callsOf (es : List TransportOp) : List (List MpvValue) :=
  es.filterMap (fun op =>
    match op with
    | TransportOp.call a => some a
    | _ => none)

/-- The seek-to-start command CyclePaused issues at end-of-file. -/
def seekToStartArgs : List MpvValue :=
  [MpvValue.vStr "seek", MpvValue.vNum 0, MpvValue.vStr "absolute-percent"]

/-- The pause-toggle command CyclePaused always issues. -/
def cyclePauseArgs : List MpvValue :=
  [MpvValue.vStr "cycle", MpvValue.vStr "pause"]

/-- IsEOF propagates the transport operations of its single Get. -/
theorem isEOF_ops (c : Connector) : (c.IsEOF).2 = (c.Get "eof-reached").2 := by
  unfold Connector.IsEOF
  rcases hx : c.Get "eof-reached" with ⟨r, es⟩
  cases r <;> simp

/-- IsPaused propagates the transport operations of its single Get. -/
theorem isPaused_ops (c : Connector) : (c.IsPaused).2 = (c.Get "pause").2 := by
  unfold Connector.IsPaused
  rcases hx : c.Get "pause" with ⟨r, es⟩
  cases r <;> simp

/-- C6: on an open connection, CyclePaused issues the seek-to-start
command before the pause toggle exactly when IsEOF and IsPaused both
return true; when either returns false it issues only the pause toggle. -/
theorem c6_cyclePaused_seek (c : Connector) (h : c.IsClosed = false) :
    ((c.IsEOF).1 = some true → (c.IsPaused).1 = some true →
      (c.CyclePaused).map (fun r => callsOf r.2) =
        some [seekToStartArgs, cyclePauseArgs]) ∧
    ((c.IsEOF).1 = some false →
      (c.CyclePaused).map (fun r => callsOf r.2) = some [cyclePauseArgs]) ∧
    ((c.IsEOF).1 = some true → (c.IsPaused).1 = some false →
      (c.CyclePaused).map (fun r => callsOf r.2) = some [cyclePauseArgs]) := by
  have hEo := isEOF_ops c
  have hPo := isPaused_ops c
  refine ⟨?_, ?_, ?_⟩
  · intro h1 h2
    rcases hE : c.IsEOF with ⟨v1, es1⟩
    rcases hP : c.IsPaused with ⟨v2, es2⟩
    rw [hE] at h1 hEo
    rw [hP] at h2 hPo
    simp only at h1 h2 hEo hPo
    subst h1
    subst h2
    rw [show es1 = [TransportOp.get "eof-reached"] by
      rw [hEo]; simp [Connector.Get, h]] at hE
    rw [show es2 = [TransportOp.get "pause"] by
      rw [hPo]; simp [Connector.Get, h]] at hP
    simp [Connector.CyclePaused, hE, hP, Connector.Call, h, callsOf,
      seekToStartArgs, cyclePauseArgs]
  · intro h1
    rcases hE : c.IsEOF with ⟨v1, es1⟩
    rw [hE] at h1 hEo
    simp only at h1 hEo
    subst h1
    rw [show es1 = [TransportOp.get "eof-reached"] by
      rw [hEo]; simp [Connector.Get, h]] at hE
    simp [Connector.CyclePaused, hE, Connector.Call, h, callsOf,
      cyclePauseArgs]
  · intro h1 h2
    rcases hE : c.IsEOF with ⟨v1, es1⟩
    rcases hP : c.IsPaused with ⟨v2, es2⟩
    rw [hE] at h1 hEo
    rw [hP] at h2 hPo
    simp only at h1 h2 hEo hPo
    subst h1
    subst h2
    rw [show es1 = [TransportOp.get "eof-reached"] by
      rw [hEo]; simp [Connector.Get, h]] at hE
    rw [show es2 = [TransportOp.get "pause"] by
      rw [hPo]; simp [Connector.Get, h]] at hP
    simp [Connector.CyclePaused, hE, hP, Connector.Call, h, callsOf,
      cyclePauseArgs]

/-- An open connection reporting end-of-file reached while paused. -/
def eofPausedConn : Connector :=
  { conn :=
    { closed := false
      callResult := fun _ => Except.ok MpvValue.vNil
      getResult := fun p =>
        if p = "eof-reached" then Except.ok (MpvValue.vBool true)
        else if p = "pause" then Except.ok (MpvValue.vBool true)
        else Except.ok MpvValue.vNil
      setResult := fun _ _ => none } }

/-- An open connection reporting playback in progress (no EOF). -/
def playingConn : Connector :=
  { conn :=
    { closed := false
      callResult := fun _ => Except.ok MpvValue.vNil
      getResult := fun p =>
        if p = "eof-reached" then Except.ok (MpvValue.vBool false)
        else if p = "pause" then Except.ok (MpvValue.vBool false)
        else Except.ok MpvValue.vNil
      setResult := fun _ _ => none } }

/-- Witness for C6 at two concrete open connections: one at EOF while
paused (seek issued first), one mid-playback (only the toggle). -/
theorem c6_cyclePaused_seek_witness :
    (eofPausedConn.IsClosed = false ∧ (eofPausedConn.IsEOF).1 = some true ∧
      (eofPausedConn.IsPaused).1 = some true ∧
      (eofPausedConn.CyclePaused).map (fun r => callsOf r.2) =
        some [seekToStartArgs, cyclePauseArgs]) ∧
    (playingConn.IsClosed = false ∧ (playingConn.IsEOF).1 = some false ∧
      (playingConn.CyclePaused).map (fun r => callsOf r.2) =
        some [cyclePauseArgs]) :=
  ⟨⟨rfl, rfl, rfl, (c6_cyclePaused_seek eofPausedConn rfl).1 rfl rfl⟩,
   ⟨rfl, rfl, (c6_cyclePaused_seek playingConn rfl).2.1 rfl⟩⟩

/-- When no open attempt ever succeeds, the connect loop makes exactly as
many attempts as the budget and sleeps one second after every failed
attempt, including the last one. -/
theorem connectAttempts_all_fail (openOk : Nat → Bool)
    (h : ∀ j, openOk j = false) :
    ∀ r i, connectAttempts openOk i r =
      { result := Except.error connectTimeoutError, attempts := r, sleeps := r } := by
  intro r
  induction r with
  | zero => intro i; rfl
  | succ n ih =>
    intro i
    simp [connectAttempts, h i, ih (i + 1)]

/-- When the first successful open attempt is the k-th one tried (within
budget), the loop stops there: k+1 attempts, k sleeps. -/
theorem connectAttempts_first_success (openOk : Nat → Bool) :
    ∀ r i k, k < r → (∀ j, j < k → openOk (i + j) = false) →
      openOk (i + k) = true →
      connectAttempts openOk i r =
        { result := Except.ok (i + k), attempts := k + 1, sleeps := k } := by
  intro r
  induction r with
  | zero => intro i k hk hfail hok; exact absurd hk (Nat.not_lt_zero k)
  | succ n ih =>
    intro i k hk hfail hok
    cases k with
    | zero =>
      have hok0 : openOk i = true := by simpa using hok
      simp [connectAttempts, hok0]
    | succ m =>
      have h0 : openOk i = false := by
        have := hfail 0 (Nat.succ_pos m)
        simpa using this
      have hrec := ih (i + 1) m (by omega)
        (fun j hj => by
          have harg : i + 1 + j = i + (j + 1) := by omega
          rw [harg]
          exact hfail (j + 1) (by omega))
        (by
          have harg : i + 1 + m = i + (m + 1) := by omega
          rw [harg]
          exact hok)
      simp [connectAttempts, h0, hrec, ConnectOutcome.mk.injEq]
      omega

/-- C3 counterexample: with retry budget 3 and a socket that never becomes
connectable, the loop performs three one-second sleeps (one after every
failed attempt, including the last), so about 3 seconds elapse, not the
claimed 2 seconds of delay only between attempts. -/
theorem c3_sleep_counterexample :
    (MPVConnect (fun _ => false) 3).sleeps = 3 ∧
    ¬ (MPVConnect (fun _ => false) 3).sleeps = 2 := by
  constructor
  · rfl
  · decide

/-- C3 amended: with retry budget 3, MPVConnect succeeds on the first
attempt whose socket open succeeds (k+1 attempts for first success at
attempt index k, without exhausting the budget); when the socket never
becomes connectable it fails with the connect timeout error after exactly
3 open attempts and 3 one-second delays (one after each failed attempt,
including the last). -/
theorem c3_connect_retry (openOk : Nat → Bool) (k : Nat) :
    (k < 3 → (∀ j, j < k → openOk j = false) → openOk k = true →
      MPVConnect openOk 3 =
        { result := Except.ok k, attempts := k + 1, sleeps := k }) ∧
    ((∀ j, openOk j = false) →
      MPVConnect openOk 3 =
        { result := Except.error connectTimeoutError, attempts := 3, sleeps := 3 }) := by
  constructor
  · intro hk hfail hok
    have h := connectAttempts_first_success openOk 3 0 k hk
      (fun j hj => by simpa using hfail j hj) (by simpa using hok)
    simpa [MPVConnect] using h
  · intro hfail
    exact connectAttempts_all_fail openOk hfail 3 0

/-- Witness for C3 amended: a socket becoming available on the third
attempt (index 2) succeeds with 3 attempts and 2 sleeps; a socket that is
never available fails after 3 attempts and 3 sleeps. -/
theorem c3_connect_retry_witness :
    ((2 < 3 ∧ (fun i => i == 2) 0 = false ∧ (fun i => i == 2) 1 = false ∧
        (fun i => i == 2) 2 = true) ∧
      MPVConnect (fun i => i == 2) 3 =
        { result := Except.ok 2, attempts := 3, sleeps := 2 }) ∧
    MPVConnect (fun _ => false) 3 =
      { result := Except.error connectTimeoutError, attempts := 3, sleeps := 3 } :=
  ⟨⟨⟨by decide, rfl, rfl, rfl⟩,
    (c3_connect_retry (fun i => i == 2) 2).1 (by decide)
      (by intro j hj; interval_cases j <;> rfl) rfl⟩,
   (c3_connect_retry (fun _ => false) 0).2 (fun _ => rfl)⟩

/-- C8: when the transport reports the connection closed, the watcher
exits quietly if the shutdown signal is already closed; if the signal is
still open it performs exactly one full application teardown, then exactly
one socket-file removal attempt, then one diagnostic message — in that
order, never two teardowns or two removals. -/
theorem c8_watcher_single_teardown (configPathOk : Bool) :
    detectMPVClose true configPathOk = [] ∧
    detectMPVClose false true =
      [WatcherAction.teardown, WatcherAction.removeSocket,
       WatcherAction.diagnostic "MPV has exited"] ∧
    (detectMPVClose false configPathOk).count WatcherAction.teardown = 1 ∧
    (detectMPVClose false true).count WatcherAction.removeSocket = 1 := by
  refine ⟨rfl, rfl, ?_, rfl⟩
  cases configPathOk <;> rfl

/-- C4 counterexample: with the info queue full (100 pending identifiers)
the plain channel send of the event listener for a start-file event has no
non-blocking successor state — it blocks rather than dropping, against the
claimed drop-on-full semantics. -/
theorem c4_blocking_counterexample :
    eventStep (startedEvent 7)
      { infoChan := List.replicate 100 0, errorChan := [], monitorMap := [],
        notifications := [] } = none ∧
    chanSend 100 (List.replicate 100 0) 7 = none := by
  constructor <;> decide

/-- C4 amended: the dequeue on the load path (addToMonitor) and the
error-notification send (mpvErrorsSend) are non-blocking with
drop-on-empty / drop-on-full semantics, so Connector operations never
block on the monitor queues; the enqueues of the event listener, however, are
plain sends on 100-capacity buffered channels, which succeed exactly while
the buffer is below capacity and block when it is full. -/
theorem c4_queue_semantics (id : Int) (name title : String) (buf : List Int)
    (st : MonitorState) (notifs : List String) :
    (chanSend 100 buf id =
      if buf.length < 100 then some (buf ++ [id]) else none) ∧
    (st.infoChan = [] → addToMonitor name st = st) ∧
    (∀ hd tl, st.infoChan = hd :: tl → addToMonitor name st =
      { st with infoChan := tl,
                monitorMap := mapInsert hd name st.monitorMap }) ∧
    mpvErrorsSend false notifs title = notifs ∧
    mpvErrorsSend true notifs title = notifs ++ [title] ∧
    eventStep (startedEvent id) st =
      (chanSend 100 st.infoChan id).map (fun b => { st with infoChan := b }) := by
  refine ⟨rfl, ?_, ?_, rfl, rfl, ?_⟩
  · intro h
    unfold addToMonitor
    rw [h]
  · intro hd tl h
    unfold addToMonitor
    rw [h]
  · simp only [eventStep, startedEvent, lookupData, MpvValue.asNum]
    rcases h : chanSend 100 st.infoChan id with _ | b <;> simp [h]

/-- Witness for C4 amended at concrete queues and states. -/
theorem c4_queue_semantics_witness :
    (chanSend 100 ([] : List Int) 9 =
      if ([] : List Int).length < 100 then some ([] ++ [9]) else none) ∧
    (initState.infoChan = [] ∧ addToMonitor "Song C" initState = initState) ∧
    (pendingState.infoChan = (5 : Int) :: [] ∧
      addToMonitor "Song C" pendingState =
        { pendingState with infoChan := [],
                            monitorMap := mapInsert 5 "Song C" pendingState.monitorMap }) ∧
    mpvErrorsSend false [] "Song C" = [] ∧
    mpvErrorsSend true [] "Song C" = [] ++ ["Song C"] ∧
    eventStep (startedEvent 9) initState =
      (chanSend 100 initState.infoChan 9).map
        (fun b => { initState with infoChan := b }) :=
  ⟨(c4_queue_semantics 9 "Song C" "Song C" [] initState []).1,
   ⟨rfl, (c4_queue_semantics 9 "Song C" "Song C" [] initState []).2.1 rfl⟩,
   ⟨rfl, (c4_queue_semantics 9 "Song C" "Song C" [] pendingState []).2.2.1 5 [] rfl⟩,
   (c4_queue_semantics 9 "Song C" "Song C" [] initState []).2.2.2.1,
   (c4_queue_semantics 9 "Song C" "Song C" [] initState []).2.2.2.2.1,
   (c4_queue_semantics 9 "Song C" "Song C" [] initState []).2.2.2.2.2⟩

/-- Running a concatenation of step sequences composes. -/
theorem runOps_append (cr : Bool) (l1 l2 : List PlayerOp) :
    ∀ st, runOps cr (l1 ++ l2) st =
      match runOps cr l1 st with
      | none => none
      | some st2 => runOps cr l2 st2 := by
  induction l1 with
  | nil => intro st; rfl
  | cons op rest ih =>
    intro st
    show runOps cr (op :: (rest ++ l2)) st = _
    rcases h : opStep cr op st with _ | st2
    · simp [runOps, h]
    · simp [runOps, h, ih st2]

/-- A start-file event followed by the registration of that load, starting from
an empty info queue, tracks the loaded title under the identifier carried by the event
and leaves the info queue empty again. -/
theorem runOps_pair (cr : Bool) (id : Int) (t : String)
    (rest : List PlayerOp) (st : MonitorState) (h : st.infoChan = []) :
    runOps cr (PlayerOp.started id :: PlayerOp.load t :: rest) st =
      runOps cr rest
        { st with infoChan := [],
                  monitorMap := mapInsert id t st.monitorMap } := by
  cases st with
  | mk ic ec mm nt =>
    simp only at h
    subst h
    simp [runOps, opStep, eventStep, startedEvent, lookupData, MpvValue.asNum,
      chanSend, addToMonitor]

/-- Running the paired (started, load) sequence folds mapInsert over all
the pairs. -/
theorem runOps_pairsOps (cr : Bool) (pairs : List (Int × String)) :
    ∀ st : MonitorState, st.infoChan = [] →
      runOps cr (pairsOps pairs) st =
        some { st with infoChan := [],
                       monitorMap := insertAll pairs st.monitorMap } := by
  induction pairs with
  | nil =>
    intro st h
    cases st with
    | mk ic ec mm nt =>
      simp only at h
      subst h
      simp [runOps, pairsOps, insertAll]
  | cons p rest ih =>
    intro st h
    rw [show pairsOps (p :: rest) =
      PlayerOp.started p.1 :: PlayerOp.load p.2 :: pairsOps rest from rfl]
    rw [runOps_pair cr p.1 p.2 (pairsOps rest) st h]
    rw [ih _ rfl]
    rfl

/-- Deleting an absent key leaves the association list unchanged. -/
theorem mapDelete_not_mem (id : Int) :
    ∀ m : List (Int × String), id ∉ m.map Prod.fst → mapDelete id m = m := by
  intro m
  induction m with
  | nil => intro _; rfl
  | cons p rest ih =>
    intro h
    simp only [List.map_cons, List.mem_cons, not_or] at h
    rw [mapDelete]
    rw [if_neg (fun he => h.1 he.symm)]
    rw [ih h.2]

/-- Inserting pairs with fresh, pairwise distinct keys appends them. -/
theorem insertAll_eq_append :
    ∀ pairs m : List (Int × String),
      (pairs.map Prod.fst).Nodup →
      (∀ id, id ∈ pairs.map Prod.fst → id ∉ m.map Prod.fst) →
      insertAll pairs m = m ++ pairs := by
  intro pairs
  induction pairs with
  | nil => intro m _ _; simp [insertAll]
  | cons p rest ih =>
    intro m hnd hdis
    rw [show insertAll (p :: rest) m = insertAll rest (mapInsert p.1 p.2 m)
      from rfl]
    have hdel : mapDelete p.1 m = m :=
      mapDelete_not_mem p.1 m (hdis p.1 (by simp))
    have hmi : mapInsert p.1 p.2 m = m ++ [p] := by
      rw [mapInsert, hdel]
    rw [hmi]
    rw [List.map_cons] at hnd
    have hp_not : p.1 ∉ rest.map Prod.fst := (List.nodup_cons.mp hnd).1
    have hnd' : (rest.map Prod.fst).Nodup := (List.nodup_cons.mp hnd).2
    have hdis' : ∀ id, id ∈ rest.map Prod.fst →
        id ∉ (m ++ [p]).map Prod.fst := by
      intro id hid
      simp only [List.map_append, List.mem_append, List.map_cons,
        List.map_nil, List.mem_singleton, not_or]
      constructor
      · exact hdis id (by simp [hid])
      · intro he
        rw [he] at hid
        exact hp_not hid
    rw [ih (m ++ [p]) hnd' hdis']
    simp

/-- Go map lookup finds the title of a tracked pair when keys are
pairwise distinct. -/
theorem mapFindD_of_mem :
    ∀ (pairs : List (Int × String)) (id : Int) (t : String),
      (pairs.map Prod.fst).Nodup → (id, t) ∈ pairs →
      mapFindD id pairs = t := by
  intro pairs
  induction pairs with
  | nil => intro id t _ hmem; cases hmem
  | cons p rest ih =>
    intro id t hnd hmem
    rw [mapFindD]
    rcases List.mem_cons.mp hmem with heq | hmem'
    · rw [← heq]
      simp
    · have hne : ¬ p.1 = id := by
        intro he
        rw [List.map_cons] at hnd
        have hidin : id ∈ rest.map Prod.fst :=
          List.mem_map.mpr ⟨(id, t), hmem', rfl⟩
        rw [he] at hnd
        exact (List.nodup_cons.mp hnd).1 hidin
      rw [if_neg hne]
      rw [List.map_cons] at hnd
      exact ih id t (List.nodup_cons.mp hnd).2 hmem'

/-- An end-file event with a non-empty error, digested by the monitor task
with a ready consumer, removes the entry of that identifier and republishes its
looked-up title. -/
theorem runOps_ended (id : Int) (e : String) (he : ¬ e = "")
    (st : MonitorState) (herr : st.errorChan = []) :
    runOps true [PlayerOp.ended id e] st =
      some { st with
             errorChan := [],
             monitorMap := mapDelete id st.monitorMap,
             notifications :=
               st.notifications ++ [mapFindD id st.monitorMap] } := by
  cases st with
  | mk ic ec mm nt =>
    simp only at herr
    subst herr
    simp [runOps, opStep, eventStep, endedEvent, lookupData, MpvValue.asStr,
      MpvValue.asNum, chanSend, ne_eq, he, monitorDrain, monitorDrainAux,
      monitorStep, mpvErrorsSend]

/-- C2 counterexample: when a Load is followed by its matching start-file
event (registration first, event second), the title is silently dropped:
afterwards the Monitor Entry Map is empty instead of containing the title
Song A for the unmatched identifier 7. -/
theorem c2_load_then_start_untracked :
    (runOps true [PlayerOp.load "Song A", PlayerOp.started 7] initState).map
      MonitorState.monitorMap = some [] ∧
    ¬ (runOps true [PlayerOp.load "Song A", PlayerOp.started 7] initState).map
      MonitorState.monitorMap = some [((7 : Int), "Song A")] := by
  constructor
  · rfl
  · decide

/-- C2 amended: for every sequence of loads whose matching start-file
event is delivered before the load registers its title (so the identifier
is pending at registration), with pairwise distinct identifiers, the
Monitor Entry Map contains exactly the titles of the identifiers not yet
matched by an end event with a non-empty error; a subsequent end-file
event with a non-empty error removes the entry of that identifier and
republishes its title on the error-notification channel. -/
theorem c2_causal_load_tracking (pairs : List (Int × String)) (id : Int)
    (t e : String) (hnd : (pairs.map Prod.fst).Nodup)
    (hmem : (id, t) ∈ pairs) (he : ¬ e = "") :
    runOps true (pairsOps pairs) initState =
      some { infoChan := [], errorChan := [], monitorMap := pairs,
             notifications := [] } ∧
    runOps true (pairsOps pairs ++ [PlayerOp.ended id e]) initState =
      some { infoChan := [], errorChan := [],
             monitorMap := mapDelete id pairs, notifications := [t] } := by
  have hins : insertAll pairs initState.monitorMap = pairs := by
    have h := insertAll_eq_append pairs [] hnd (by simp)
    simpa [initState] using h
  have hstate : runOps true (pairsOps pairs) initState =
      some { infoChan := [], errorChan := [], monitorMap := pairs,
             notifications := [] } := by
    rw [runOps_pairsOps true pairs initState rfl, hins]
    rfl
  refine ⟨hstate, ?_⟩
  have happ := runOps_append true (pairsOps pairs) [PlayerOp.ended id e]
    initState
  rw [hstate] at happ
  refine Eq.trans happ ?_
  show runOps true [PlayerOp.ended id e]
      { infoChan := [], errorChan := [], monitorMap := pairs,
        notifications := [] } = _
  rw [runOps_ended id e he _ rfl, mapFindD_of_mem pairs id t hnd hmem]
  rfl

/-- Witness for C2 amended: one load of Song A whose start event (entry
identifier 7) precedes its registration, then a failing end event. -/
theorem c2_causal_load_tracking_witness :
    ((([((7 : Int), "Song A")].map Prod.fst).Nodup ∧
      ((7 : Int), "Song A") ∈ [((7 : Int), "Song A")] ∧
      ¬ "Load failed" = "") ∧
    (runOps true (pairsOps [((7 : Int), "Song A")]) initState =
      some { infoChan := [], errorChan := [],
             monitorMap := [((7 : Int), "Song A")], notifications := [] } ∧
    runOps true (pairsOps [((7 : Int), "Song A")] ++
        [PlayerOp.ended 7 "Load failed"]) initState =
      some { infoChan := [], errorChan := [],
             monitorMap := mapDelete 7 [((7 : Int), "Song A")],
             notifications := ["Song A"] })) :=
  ⟨⟨by decide, by decide, by decide⟩,
   c2_causal_load_tracking [((7 : Int), "Song A")] 7 "Song A" "Load failed"
     (by decide) (by decide) (by decide)⟩
